import Mathlib

/-!
Verification of the scholardoc-ocr core against its specification.

This file shallowly embeds the parts of the `scholardoc_ocr` Python package
that the checked claims touch: the quality signals and composite analyzer
(`quality.py`, `dictionary.py`, `confidence.py`), the batch planner
(`batch.py`), the result types (`types.py`), the Surya engine wrapper's
fallback logic (`surya.py`), and the text post-processor (`postprocess.py`).

Modelling conventions:
  * Python floats are modelled as exact rationals (`ℚ`); every comparison the
    claims exercise is far from a binary-float rounding boundary.
  * Python `int` is modelled as `Int` (or `Nat` for values that are counts by
    construction).
  * Character classes (`str.isalpha`, regex `\w`, `str.lower`, ...) are
    modelled on the ASCII range, which covers every concrete text evaluated
    here; both sides of each universally quantified theorem use the same
    embedded classes, so the theorems are about the embedded program itself.
  * Regular expressions from the source are compiled by hand into character
    scanners; each scanner's doc comment names the regex it implements.
    Scanners that consume input non-structurally take an explicit fuel
    argument, instantiated with the input length by their wrapper.
  * Exceptions are modelled with `Except`; external engine invocations are
    oracle parameters supplying the outcome the external call would have.
-/

set_option autoImplicit false
set_option maxRecDepth 16384

namespace ScholarDoc

/-! ## Python string primitives -/

/-- Python whitespace for `str.split()` / `str.strip()` (ASCII range). -/
def isPyWs (c : Char) : Bool :=
  c = ' ' || c = '\t' || c = '\n' || c = '\r' || c = Char.ofNat 11 || c = Char.ofNat 12

/-- One step of whitespace splitting, used by `pyTokens` via `foldr`. -/
def wsStep (c : Char) (acc : List (List Char)) : List (List Char) :=
  if isPyWs c then [] :: acc
  else
    match acc with
    | [] => [[c]]
    | t :: ts => (c :: t) :: ts

/-- Python `text.split()`: whitespace-separated tokens, empties dropped. -/
def pyTokens (s : List Char) : List (List Char) :=
  (s.foldr wsStep [[]]).filter (fun t => !t.isEmpty)

/-- Python `s.strip(chars)`: drop characters of `toStrip` from both ends. -/
def pyStrip (toStrip : List Char) (w : List Char) : List Char :=
  ((w.dropWhile (fun c => toStrip.contains c)).reverse.dropWhile
    (fun c => toStrip.contains c)).reverse

/-- Python `s.strip()` (no argument): strip whitespace from both ends. -/
def pyStripWs (w : List Char) : List Char :=
  ((w.dropWhile isPyWs).reverse.dropWhile isPyWs).reverse

/-- Python `s.rstrip()`: strip whitespace from the right end only. -/
def pyRstrip (w : List Char) : List Char :=
  (w.reverse.dropWhile isPyWs).reverse

/-- Python `str.lower` on the ASCII range. -/
def pyLower (w : List Char) : List Char :=
  w.map Char.toLower

/-- Python `int(x)` on a float: truncation toward zero, on the exact rational. -/
def pyTruncToInt (q : ℚ) : Int :=
  if 0 ≤ q then ⌊q⌋ else -⌊-q⌋

/-- Update the element at an index, identity when the index is out of range
(every call site reached by the pipeline is in range; see the C10 theorem). -/
def listModify {α : Type} (f : α → α) : Nat → List α → List α
  | _, [] => []
  | 0, x :: xs => f x :: xs
  | n + 1, x :: xs => x :: listModify f n xs

/-! ## Result types (`types.py`) -/

/-- OCR engine used for processing (`types.OCREngine`). -/
inductive OCREngine : Type
  | tesseract
  | surya
  | existing
  | mixed
  | none
deriving DecidableEq, Repr

/-- Quality status of a processed page (`types.PageStatus`). -/
inductive PageStatus : Type
  | good
  | flagged
  | error
deriving DecidableEq, Repr

/-- Result for a single page (`types.PageResult`); the fields the claims
touch. -/
structure PageResult : Type where
  page_number : Nat
  status : PageStatus
  quality_score : ℚ
  engine : OCREngine
  flagged : Bool
  text : Option String
deriving DecidableEq, Repr

/-- Result for a single file (`types.FileResult`); only the page list matters
to the claims checked here. -/
structure FileResult : Type where
  pages : List PageResult
deriving DecidableEq, Repr

/-- The non-NONE per-page engines, in page order (the multiset underlying the
set comprehension `{p.engine for p in pages if p.engine != OCREngine.NONE}`). -/
def nonNoneEngines (pages : List PageResult) : List OCREngine :=
  (pages.map (fun p => p.engine)).filter (fun e => decide (e ≠ OCREngine.none))

/-- `types.compute_engine_from_pages`. The source forms the set of non-NONE
per-page engines and compares it with singleton sets; a nonempty set equals
`{X}` exactly when every element is `X`, which is how the comparisons are
rendered here. -/
def compute_engine_from_pages (pages : List PageResult) : OCREngine :=
  let engines := nonNoneEngines pages
  if engines.isEmpty then OCREngine.none
  else if engines.all (fun e => decide (e = OCREngine.tesseract)) then OCREngine.tesseract
  else if engines.all (fun e => decide (e = OCREngine.surya)) then OCREngine.surya
  else if engines.all (fun e => decide (e = OCREngine.existing)) then OCREngine.existing
  else OCREngine.mixed

/-- The engine roll-up rule exactly as the specification words it: the
distinct per-page engine values (NONE not excluded) — all the same value →
that value; empty or all-NONE → NONE; otherwise MIXED. Written from the
spec's words for comparison with `compute_engine_from_pages`. -/
def specEngineRule (pages : List PageResult) : OCREngine :=
  let es := (pages.map (fun p => p.engine)).dedup
  if es.isEmpty then OCREngine.none
  else if es.all (fun e => decide (e = OCREngine.none)) then OCREngine.none
  else
    match es with
    | [e] => e
    | _ => OCREngine.mixed

/-! ## Batch planner (`batch.py`) -/

/-- `batch.BATCH_SIZE_MEMORY_PER_PAGE_GB = 0.7`. -/
def BATCH_SIZE_MEMORY_PER_PAGE_GB : ℚ := 0.7

/-- `batch.compute_safe_batch_size`. -/
def compute_safe_batch_size (total_pages : Int) (available_memory_gb : ℚ)
    (device : String) : Int :=
  if total_pages ≤ 0 then 0
  else if device = "cpu" then min total_pages 32
  else
    let safe_memory := available_memory_gb * 0.5
    let max_by_memory : Int := pyTruncToInt (safe_memory / BATCH_SIZE_MEMORY_PER_PAGE_GB)
    max 1 (min total_pages (min max_by_memory 100))

/-- Scanner for `re.split(r"\n-{3,}\n", s)`: a separator is a newline, a
maximal run of at least three hyphens, and a newline (the hyphen run being
maximal, no backtracked shorter run can be followed by a newline). Fuel
decreases on every step; each step consumes at least one character, so
`s.length` fuel suffices. -/
def splitHrGo : Nat → List Char → List Char → List String
  | 0, acc, rest => [String.mk (acc.reverse ++ rest)]
  | _ + 1, acc, [] => [String.mk acc.reverse]
  | fuel + 1, acc, c :: cs =>
    if c = '\n' then
      let hy := cs.takeWhile (fun d => d = '-')
      if 3 ≤ hy.length then
        match cs.drop hy.length with
        | '\n' :: rest2 => String.mk acc.reverse :: splitHrGo fuel [] rest2
        | _ => splitHrGo fuel (c :: acc) cs
      else splitHrGo fuel (c :: acc) cs
    else splitHrGo fuel (c :: acc) cs

/-- `re.split(r"\n-{3,}\n", markdown)`. -/
def reSplitHr (s : String) : List String :=
  splitHrGo s.data.length [] s.data

/-- Scanner for `re.split(r"\n{3,}", s)`: a separator is a maximal run of at
least three newlines (the `{3,}` quantifier is greedy). -/
def splitNlGo : Nat → List Char → List Char → List String
  | 0, acc, rest => [String.mk (acc.reverse ++ rest)]
  | _ + 1, acc, [] => [String.mk acc.reverse]
  | fuel + 1, acc, c :: cs =>
    if c = '\n' then
      let run := cs.takeWhile (fun d => d = '\n')
      if 2 ≤ run.length then
        String.mk acc.reverse :: splitNlGo fuel [] (cs.drop run.length)
      else splitNlGo fuel (c :: acc) cs
    else splitNlGo fuel (c :: acc) cs

/-- `re.split(r"\n{3,}", markdown)`. -/
def reSplitNl3 (s : String) : List String :=
  splitNlGo s.data.length [] s.data

/-- `batch.split_markdown_by_pages`. -/
def split_markdown_by_pages (markdown : String) (page_count : Nat) : List String :=
  if page_count = 0 then []
  else if page_count = 1 then [markdown]
  else
    let parts := reSplitHr markdown
    if page_count ≤ parts.length then parts.take page_count
    else
      let parts2 := reSplitNl3 markdown
      if page_count ≤ parts2.length then parts2.take page_count
      else markdown :: List.replicate (page_count - 1) ""

/-- Scanner splitting on maximal runs of at least three hyphens, wherever
they occur — the engine-output splitter's first pass exactly as the claim
words it ("split on runs of three-or-more hyphens", with no newline
context). Written from the claim's words for comparison with `reSplitHr`. -/
def claimHyphenGo : Nat → List Char → List Char → List String
  | 0, acc, rest => [String.mk (acc.reverse ++ rest)]
  | _ + 1, acc, [] => [String.mk acc.reverse]
  | fuel + 1, acc, c :: cs =>
    if c = '-' then
      let run := cs.takeWhile (fun d => d = '-')
      if 2 ≤ run.length then
        String.mk acc.reverse :: claimHyphenGo fuel [] (cs.drop run.length)
      else claimHyphenGo fuel (c :: acc) cs
    else claimHyphenGo fuel (c :: acc) cs

/-- Split on maximal runs of at least three hyphens (claim wording). -/
def claimHyphenSplit (s : String) : List String :=
  claimHyphenGo s.data.length [] s.data

/-- Scanner splitting on runs of three or more blank lines, i.e. maximal runs
of at least four newline characters. Written from the claim's words for
comparison with `reSplitNl3`. -/
def claimBlankGo : Nat → List Char → List Char → List String
  | 0, acc, rest => [String.mk (acc.reverse ++ rest)]
  | _ + 1, acc, [] => [String.mk acc.reverse]
  | fuel + 1, acc, c :: cs =>
    if c = '\n' then
      let run := cs.takeWhile (fun d => d = '\n')
      if 3 ≤ run.length then
        String.mk acc.reverse :: claimBlankGo fuel [] (cs.drop run.length)
      else claimBlankGo fuel (c :: acc) cs
    else claimBlankGo fuel (c :: acc) cs

/-- Split on runs of three or more blank lines (claim wording). -/
def claimBlankSplit (s : String) : List String :=
  claimBlankGo s.data.length [] s.data

/-! ## Garbled-text signal (`quality._GarbledSignal`) -/

/-- Score and pass flag of a quality signal (`types.SignalResult`, restricted
to the fields the claims exercise). -/
structure SignalOut : Type where
  score : ℚ
  passed : Bool
deriving DecidableEq, Repr

/-- Regex `\w` on the ASCII range: letters, digits, underscore. -/
def isWordC (c : Char) : Bool :=
  c.isAlphanum || c = '_'

/-- Characters stripped from token ends: `word.strip(".,;:!?()[]{}\"'-–—")`. -/
def garbledStripSet : List Char :=
  ['.', ',', ';', ':', '!', '?', '(', ')', '[', ']',
   Char.ofNat 123, Char.ofNat 125, Char.ofNat 34, Char.ofNat 39,
   '-', Char.ofNat 0x2013, Char.ofNat 0x2014]

/-- `_GarbledSignal.VALID_SHORT` (duplicates as in the source are harmless). -/
def VALID_SHORT : List String :=
  ["a", "i", "à", "y", "ô", "le", "la", "de", "du", "un", "en",
   "et", "ou", "au", "il", "je", "tu", "on", "ce", "se", "ne",
   "the", "of", "to", "in", "is", "it", "an", "as", "at", "be",
   "by", "or", "so", "we", "if", "my", "up", "no", "do",
   "et", "in", "ad", "ex", "ab", "de"]

/-- `_GarbledSignal.VALID_TERMS`: the union of the curated German, French and
Greek philosophy vocabularies. -/
def VALID_TERMS : List String :=
  ["wissenschaft", "grundlegung", "weltanschauung", "vorstellung",
   "bestimmung", "begrifflichkeit", "zusammenhang", "beziehung",
   "freiheit", "wahrheit", "sein", "seiende", "nichts", "wesen",
   "bedeutung", "sinn", "zweck", "grund", "ursache", "wirkung",
   "vorurteil", "bildung", "erfahrung", "geschichte", "natur", "kultur",
   "gesellschaft", "gemeinschaft", "freundschaft", "eigenschaft",
   "grundsätzlichkeit", "freundlichkeit", "möglichkeit", "notwendigkeit",
   "widerspruch", "gegensatz", "einheit", "vielheit", "allgemeinheit",
   "besonderheit", "einzelheit", "substanz", "subjekt", "objekt",
   "bewusstsein", "unbewusstes", "trieb", "wille", "macht",
   "erschlossenheit", "befindlichkeit", "geworfenheit", "eigentlichkeit",
   "uneigentlichkeit", "vorhandenheit", "zuhandenheit", "mitsein", "dasein",
   "zeitlichkeit", "geschichtlichkeit", "weltlichkeit", "sorge", "schuld",
   "entschlossenheit", "wiederholung", "augenblick", "vorlaufen",
   "gewesenheit", "gegenwärtigen", "gewärtigen", "verstehen", "auslegung",
   "rede", "gerede", "neugier", "zweideutigkeit", "verfallenheit",
   "angst", "furcht", "langeweile", "stimmung", "befindlich",
   "lichtung", "gestell", "ereignis", "kehre", "gelassenheit",
   "grundstimmung", "unverborgenheit", "seinsgeschichte",
   "vernunft", "verstand", "anschauung", "urteilskraft", "pflicht",
   "kategorisch", "imperativ", "transzendental", "apriorisch", "erkenntnis",
   "erscheinung", "noumenon", "ding", "einbildungskraft", "sinnlichkeit",
   "empfindung", "wahrnehmung",
   "geist", "aufhebung", "dialektik", "synthese", "entfremdung",
   "selbstbewusstsein", "absolut", "vermittlung", "wirklichkeit",
   "intentionalität", "epoché", "reduktion", "lebenswelt",
   "noesis", "noema", "konstitution", "evidenz",
   "autrement", "visage", "infini", "totalité", "altérité",
   "jouissance", "fécondité", "proximité", "responsabilité",
   "substitution", "signification", "conscience", "différence",
   "présence", "absence", "parole", "écriture", "discours",
   "aletheia", "phronesis", "episteme", "techne", "theoria", "praxis",
   "ousia", "eidos", "logos", "nous", "psyche", "pneuma",
   "arche", "telos", "dynamis", "energeia", "entelecheia",
   "eudaimonia", "arete", "sophia", "doxa", "noesis"]

/-- `_GarbledSignal.GERMAN_SUFFIXES`. -/
def GERMAN_SUFFIXES : List String :=
  ["keit", "heit", "ung", "schaft", "lich", "isch", "tum", "nis"]

/-- Dash characters of the class `[-–—]`. -/
def isDashC (c : Char) : Bool :=
  c = '-' || c = Char.ofNat 0x2013 || c = Char.ofNat 0x2014

/-- Regex `^\d+$`. -/
def refAllDigits (w : List Char) : Bool :=
  !w.isEmpty && w.all Char.isDigit

/-- Regex `^\d{1,4}[-–—]+\d{1,4}$` (digit, dash and digit runs are maximal
because the character classes are disjoint). -/
def refPageRange (w : List Char) : Bool :=
  let a := w.takeWhile Char.isDigit
  let r1 := w.drop a.length
  let d := r1.takeWhile isDashC
  let r2 := r1.drop d.length
  let b := r2.takeWhile Char.isDigit
  decide (1 ≤ a.length) && decide (a.length ≤ 4) && decide (1 ≤ d.length) &&
    decide (1 ≤ b.length) && decide (b.length ≤ 4) && (r2.drop b.length).isEmpty

/-- Regex `^[ivxlcdm]+$` with IGNORECASE. -/
def refRoman (w : List Char) : Bool :=
  !w.isEmpty && w.all (fun c => "ivxlcdm".data.contains c.toLower)

/-- Regex `^\d{4}$`. -/
def refYear (w : List Char) : Bool :=
  decide (w.length = 4) && w.all Char.isDigit

/-- Regex `^[A-Z]\d+$`. -/
def refFigureCode (w : List Char) : Bool :=
  match w with
  | c :: rest => c.isUpper && !rest.isEmpty && rest.all Char.isDigit
  | [] => false

/-- Regex `^\d+[a-z]?$`. -/
def refNumberLetter (w : List Char) : Bool :=
  let a := w.takeWhile Char.isDigit
  decide (1 ≤ a.length) &&
    (match w.drop a.length with
     | [] => true
     | [c] => c.isLower
     | _ => false)

/-- Regex `^ISBN` with IGNORECASE (prefix match). -/
def refIsbn (w : List Char) : Bool :=
  match w with
  | a :: b :: c :: d :: _ =>
    a.toLower = 'i' && b.toLower = 's' && c.toLower = 'b' && d.toLower = 'n'
  | _ => false

/-- Regex `^\d{1,3}\.\d` (prefix match; the digit run is maximal because no
shorter backtracked run is followed by a dot). -/
def refDecimal (w : List Char) : Bool :=
  let a := w.takeWhile Char.isDigit
  decide (1 ≤ a.length) && decide (a.length ≤ 3) &&
    (match w.drop a.length with
     | '.' :: d :: _ => d.isDigit
     | _ => false)

/-- Regex `^[A-Z]{2,4}\d` (prefix match; uppercase and digit are disjoint so
only the maximal uppercase run can be followed by a digit). -/
def refUpperDigits (w : List Char) : Bool :=
  let a := w.takeWhile Char.isUpper
  decide (2 ≤ a.length) && decide (a.length ≤ 4) &&
    (match w.drop a.length with
     | d :: _ => d.isDigit
     | [] => false)

/-- A maximal run of `\s*` followed by a digit (only the maximal whitespace
run can be followed by a digit). -/
def wsThenDigit (w : List Char) : Bool :=
  match w.dropWhile isPyWs with
  | d :: _ => d.isDigit
  | [] => false

/-- Regex `^pp?\.\s*\d` with IGNORECASE (prefix match; the optional second
`p` is taken greedily, and backtracking to one `p` cannot succeed because the
following character would then be a `p`, not a dot). -/
def refPageCite (w : List Char) : Bool :=
  match w with
  | p0 :: p1 :: rest =>
    (p0.toLower = 'p') &&
      (if p1.toLower = 'p' then
        match rest with
        | '.' :: r2 => wsThenDigit r2
        | _ => false
      else p1 = '.' && wsThenDigit rest)
  | _ => false

/-- Regex `^\(\d+\)$`. -/
def refParenIdx (w : List Char) : Bool :=
  match w with
  | '(' :: rest =>
    let a := rest.takeWhile Char.isDigit
    decide (1 ≤ a.length) && rest.drop a.length = [')']
  | _ => false

/-- Regex `^\[\d+\]$`. -/
def refBracketIdx (w : List Char) : Bool :=
  match w with
  | '[' :: rest =>
    let a := rest.takeWhile Char.isDigit
    decide (1 ≤ a.length) && rest.drop a.length = [']']
  | _ => false

/-- Regex `^§\d` (prefix match). -/
def refSectionSign (w : List Char) : Bool :=
  match w with
  | s :: d :: _ => s = Char.ofNat 0xA7 && d.isDigit
  | _ => false

/-- Regex `^\d+[a-z]?[-–—]+\d+[a-z]?$` (all runs are maximal because the
classes are pairwise disjoint). -/
def refPageRangeLetters (w : List Char) : Bool :=
  let a := w.takeWhile Char.isDigit
  if a.isEmpty then false
  else
    let r1 := w.drop a.length
    let r1' := match r1 with
      | c :: rest => if c.isLower then rest else r1
      | [] => r1
    let d := r1'.takeWhile isDashC
    if d.isEmpty then false
    else
      let r2 := r1'.drop d.length
      let b := r2.takeWhile Char.isDigit
      if b.isEmpty then false
      else
        match r2.drop b.length with
        | [] => true
        | [c] => c.isLower
        | _ => false

/-- Regex `^[\d][\d\-–—]+[\d]$`: first and last characters are digits and
every middle character is a digit or dash (the `+` class contains digits, so
any interior split backtracks successfully). -/
def refDigitDashRun (w : List Char) : Bool :=
  decide (3 ≤ w.length) &&
    (match w with
     | c :: _ => c.isDigit
     | [] => false) &&
    (match w.getLast? with
     | Option.some c => c.isDigit
     | Option.none => false) &&
    (w.drop 1).dropLast.all (fun c => c.isDigit || isDashC c)

/-- Regex `^\d[\d.\-–—/]+\d$` (same argument as `refDigitDashRun`). -/
def refDoiLike (w : List Char) : Bool :=
  decide (3 ≤ w.length) &&
    (match w with
     | c :: _ => c.isDigit
     | [] => false) &&
    (match w.getLast? with
     | Option.some c => c.isDigit
     | Option.none => false) &&
    (w.drop 1).dropLast.all (fun c => c.isDigit || c = '.' || isDashC c || c = '/')

/-- `any(p.match(word_clean) for p in VALID_PATTERNS)`. -/
def isValidRef (w : List Char) : Bool :=
  refAllDigits w || refPageRange w || refRoman w || refYear w ||
  refFigureCode w || refNumberLetter w || refIsbn w || refDecimal w ||
  refUpperDigits w || refPageCite w || refParenIdx w || refBracketIdx w ||
  refSectionSign w || refPageRangeLetters w || refDigitDashRun w || refDoiLike w

/-- Whether the list has `k` consecutive characters satisfying `p`, tracking
the current run length. -/
def hasRunAux (p : Char → Bool) (k : Nat) : List Char → Nat → Bool
  | [], _ => false
  | c :: cs, cur =>
    if p c then decide (k ≤ cur + 1) || hasRunAux p k cs (cur + 1)
    else hasRunAux p k cs 0

/-- Regex search `[bcdfghjklmnpqrstvwxz]{6,}` with IGNORECASE. -/
def hasConsonantCluster (w : List Char) : Bool :=
  hasRunAux (fun c => "bcdfghjklmnpqrstvwxz".data.contains c.toLower) 6 w 0

/-- Character class of `[^\w\s\.\,\;\:\!\?\'\"\-\–\—\…\*\(\)]`. -/
def isSymbolRunC (c : Char) : Bool :=
  !(isWordC c || isPyWs c ||
    ['.', ',', ';', ':', '!', '?', Char.ofNat 39, Char.ofNat 34,
     '-', Char.ofNat 0x2013, Char.ofNat 0x2014, Char.ofNat 0x2026,
     '*', '(', ')'].contains c)

/-- Regex search `[^\w\s...]{3,}` (symbol run of three or more). -/
def hasSymbolRun (w : List Char) : Bool :=
  hasRunAux isSymbolRunC 3 w 0

/-- Match of `[A-Z][a-z]+[A-Z][a-z]*\b` at the head of the list (the leading
word boundary is checked by the caller). Lowercase runs are maximal: no
boundary exists inside a run of word characters. -/
def weirdCaseAt (w : List Char) : Bool :=
  match w with
  | u :: rest =>
    u.isUpper &&
      (let l1 := rest.takeWhile Char.isLower
       decide (1 ≤ l1.length) &&
         (match rest.drop l1.length with
          | u2 :: rest2 =>
            u2.isUpper &&
              (let l2 := rest2.takeWhile Char.isLower
               match rest2.drop l2.length with
               | [] => true
               | d :: _ => !isWordC d)
          | [] => false))
  | [] => false

/-- Regex search `\b[A-Z][a-z]+[A-Z][a-z]*\b`; the Boolean argument tracks
whether the current position follows a word boundary. -/
def weirdCaseSearch : List Char → Bool → Bool
  | [], _ => false
  | c :: cs, atB => (atB && weirdCaseAt (c :: cs)) || weirdCaseSearch cs (!isWordC c)

/-- Regex search `\b[A-Z][a-z]+[A-Z][a-z]*\b` over a whole token. -/
def hasWeirdCase (w : List Char) : Bool :=
  weirdCaseSearch w true

/-- Regex search `[\x00-\x08\x0b\x0c\x0e-\x1f\x7f-\x9f]`. -/
def hasControlChar (w : List Char) : Bool :=
  w.any (fun c =>
    decide (c.toNat ≤ 8) || c.toNat = 11 || c.toNat = 12 ||
    (decide (14 ≤ c.toNat) && decide (c.toNat ≤ 31)) ||
    (decide (127 ≤ c.toNat) && decide (c.toNat ≤ 159)))

/-- `word_clean.lower().endswith(GERMAN_SUFFIXES)`. -/
def hasGermanSuffix (wc : List Char) : Bool :=
  GERMAN_SUFFIXES.any (fun suf => suf.data.isSuffixOf (pyLower wc))

/-- The garbled test applied to a cleaned token: alpha ratio below 0.3 with
length above 4, or one of the four garbled-pattern regexes (the consonant
cluster check is skipped for words with a German suffix). The float
comparison `alpha_count / len < 0.3` is exact at these magnitudes and is
rendered as `10 * alpha_count < 3 * len`. -/
def tokenIsGarbled (wc : List Char) : Bool :=
  let alphaCount := (wc.filter Char.isAlpha).length
  let lowAlpha := decide (10 * alphaCount < 3 * wc.length) && decide (4 < wc.length)
  lowAlpha ||
    ((!hasGermanSuffix wc && hasConsonantCluster wc) ||
     hasSymbolRun wc || hasWeirdCase wc || hasControlChar wc)

/-- `word.strip(".,;:!?()[]{}\"'-–—")` applied to one whitespace token. -/
def cleanGarbledToken (w : List Char) : List Char :=
  pyStrip garbledStripSet w

/-- Whether the scoring loop skips the token: cleaned length below 2, a
stop-word, a valid reference pattern, or a curated vocabulary word. -/
def garbledTokenSkipped (w : List Char) : Bool :=
  let wc := cleanGarbledToken w
  decide (wc.length < 2) || VALID_SHORT.contains (String.mk (pyLower wc)) ||
    isValidRef wc || VALID_TERMS.contains (String.mk (pyLower wc))

/-- The token loop of `_GarbledSignal.score`, accumulating the garbled count
(the collected sample issues do not affect the score and are not modelled). -/
def garbledLoop : List (List Char) → Nat → Nat
  | [], g => g
  | w :: ws, g =>
    if garbledTokenSkipped w then garbledLoop ws g
    else if tokenIsGarbled (cleanGarbledToken w) then garbledLoop ws (g + 1)
    else garbledLoop ws g

/-- `_GarbledSignal.score` (signal name and details omitted; the signal's own
threshold is the analyzer threshold it was constructed with). -/
def garbledSignal (threshold : ℚ) (text : String) : SignalOut :=
  if text.data.isEmpty || decide ((pyStripWs text.data).length < 100) then
    { score := 1, passed := true }
  else
    let words := pyTokens text.data
    let total := words.length
    if total = 0 then { score := 1, passed := true }
    else
      let garbled := garbledLoop words 0
      let score := max 0 (1 - (garbled : ℚ) / (total : ℚ) * 2)
      { score := score, passed := decide (threshold ≤ score) }

/-- The engine-output splitter exactly as the claim words it, for every
`n ≥ 1`: try the hyphen split, then the blank-line split; a split that
yields at least `n` parts wins and its first `n` parts are returned;
otherwise the whole text becomes the first page. Written from the claim's
words for comparison with `split_markdown_by_pages`. -/
def claimSplitPages (markdown : String) (n : Nat) : List String :=
  let p1 := claimHyphenSplit markdown
  if n ≤ p1.length then p1.take n
  else
    let p2 := claimBlankSplit markdown
    if n ≤ p2.length then p2.take n
    else markdown :: List.replicate (n - 1) ""

/-! ## Dictionary signal (`dictionary.DictionarySignal`) -/

/-- `string.punctuation` plus the extra dashes, curly quotes and ellipsis of
`dictionary._PUNCT_TABLE`; `str.translate` deletes these characters. -/
def dictPunct : List Char :=
  ['!', Char.ofNat 34, '#', '$', '%', '&', Char.ofNat 39, '(', ')', '*',
   '+', ',', '-', '.', '/', ':', ';', '<', '=', '>', '?', '@', '[',
   Char.ofNat 92, ']', '^', '_', Char.ofNat 96, Char.ofNat 123, '|',
   Char.ofNat 125, '~', Char.ofNat 0x2013, Char.ofNat 0x2014,
   Char.ofNat 0x2018, Char.ofNat 0x2019, Char.ofNat 0x201C,
   Char.ofNat 0x201D, Char.ofNat 0x2026]

/-- `token.translate(_PUNCT_TABLE).strip()`. -/
def dictCleanToken (w : List Char) : List Char :=
  pyStripWs (w.filter (fun c => !dictPunct.contains c))

/-- `dictionary._VOWELS`. -/
def dictVowels : List Char :=
  "aeiouyàáâãäåèéêëìíîïòóôõöùúûüæœ".data

/-- Regex search `(.)\1{3,}`: four or more copies of one character (`.` does
not match a newline). -/
def hasRepeatRun : List Char → Bool
  | a :: b :: c :: d :: rest =>
    (decide (a ≠ '\n') && a = b && b = c && c = d) || hasRepeatRun (b :: c :: d :: rest)
  | _ => false

/-- Regex search `(..)\1{2,}`: a two-character block repeated three or more
times (`.` does not match a newline). -/
def hasAlternating : List Char → Bool
  | a :: b :: c :: d :: e :: f :: rest =>
    (decide (a ≠ '\n') && decide (b ≠ '\n') && a = c && b = d && c = e && d = f) ||
      hasAlternating (b :: c :: d :: e :: f :: rest)
  | _ => false

/-- `dictionary._is_structurally_valid`. The float ratio comparisons are
exact at these magnitudes and are rendered with integer arithmetic:
`vowel_count / n < 0.1` as `10 * vowels < n`, `vowel_count / n > 0.9` as
`10 * vowels > 9 * n`, and `unique / n < 0.3` as `10 * unique < 3 * n`. -/
def isStructurallyValid (w : List Char) : Bool :=
  let lower := pyLower w
  let n := lower.length
  if n < 2 then true
  else
    let vowels := (lower.filter (fun c => dictVowels.contains c)).length
    if decide (10 * vowels < n) && decide (3 < n) then false
    else if decide (9 * n < 10 * vowels) && decide (4 < n) then false
    else if hasRepeatRun lower then false
    else if hasAlternating lower then false
    else if decide (6 < n) && decide (10 * lower.dedup.length < 3 * n) then false
    else true

/-- Counters of the dictionary scoring loop. -/
structure DictCounts : Type where
  known : Nat
  structured : Nat
  garbledCount : Nat
  totalScored : Nat
deriving DecidableEq, Repr

/-- The token loop of `DictionarySignal.score`. The word list is the bundled
`data/wordlist.txt` (plus optional custom vocabulary), loaded once; the file
is not part of the sources, so the loaded set is a parameter. -/
def dictLoop (wordlist : List String) : List (List Char) → DictCounts → DictCounts
  | [], acc => acc
  | t :: ts, acc =>
    let w := dictCleanToken t
    if decide (w.length < 3) || !w.any Char.isAlpha then dictLoop wordlist ts acc
    else
      let lower := String.mk (pyLower w)
      if wordlist.contains lower then
        dictLoop wordlist ts { acc with known := acc.known + 1, totalScored := acc.totalScored + 1 }
      else if isStructurallyValid w then
        dictLoop wordlist ts { acc with structured := acc.structured + 1, totalScored := acc.totalScored + 1 }
      else
        dictLoop wordlist ts { acc with garbledCount := acc.garbledCount + 1, totalScored := acc.totalScored + 1 }

/-- Python `round(q, 4)`: round half to even at four decimal places (exact on
the rational model). -/
def pyRound4 (q : ℚ) : ℚ :=
  let x := q * 10000
  let fl := ⌊x⌋
  let r : Int :=
    if x - fl < 1 / 2 then fl
    else if 1 / 2 < x - fl then fl + 1
    else if fl % 2 = 0 then fl else fl + 1
  (r : ℚ) / 10000

/-- The dictionary signal's pass floor (`DictionarySignal.__init__` default,
used by the analyzer's construction). -/
def dictFloor : ℚ := 0.5

/-- `DictionarySignal.score`, parameterized by the loaded word list. -/
def dictSignal (wordlist : List String) (text : String) : SignalOut :=
  if text.data.isEmpty || (pyStripWs text.data).isEmpty then
    { score := 1, passed := true }
  else
    let counts := dictLoop wordlist (pyTokens text.data) ⟨0, 0, 0, 0⟩
    if counts.totalScored = 0 then { score := 1, passed := true }
    else
      let weighted : ℚ := (counts.known : ℚ) * 1 + (counts.structured : ℚ) * 0.5
      let score := pyRound4 (min 1 (max 0 (weighted / (counts.totalScored : ℚ))))
      { score := score, passed := decide (dictFloor ≤ score) }

/-! ## Confidence signal (`confidence.ConfidenceSignal`) -/

/-- One word of Tesseract confidence data: `{"text": str, "conf": int}`. -/
structure ConfWord : Type where
  text : String
  conf : Int
deriving DecidableEq, Repr

/-- The validity filter of `score_from_data`: positive confidence and
non-blank text. -/
def confValid (w : ConfWord) : Bool :=
  decide (0 < w.conf) && !(pyStripWs w.text.data).isEmpty

/-- `ConfidenceSignal.score_from_data` (details omitted). -/
def confSignal (confidence_data : List ConfWord) : SignalOut :=
  let valid := confidence_data.filter confValid
  if valid.isEmpty then { score := 0.5, passed := true }
  else
    let total_weight : ℚ := (valid.map (fun w => ((max 1 w.text.length : Nat) : ℚ))).sum
    let weighted_sum : ℚ := (valid.map (fun w => (w.conf : ℚ) * ((max 1 w.text.length : Nat) : ℚ))).sum
    let normalized := weighted_sum / total_weight / 100
    { score := normalized, passed := decide ((0.5 : ℚ) ≤ normalized) }

/-! ## Composite analyzer (`quality.QualityAnalyzer`) -/

/-- The analyzer's configuration surface: threshold, per-signal floors
(`signal_floors` defaults 0.3 / 0.5 / 0.4) and the loaded dictionary word
list (the bundled word-list file is not part of the sources). -/
structure Analyzer : Type where
  threshold : ℚ := 0.85
  floorConfidence : ℚ := 0.3
  floorGarbled : ℚ := 0.5
  floorDictionary : ℚ := 0.4
  wordlist : List String := []
deriving DecidableEq, Repr

/-- `QualityAnalyzer._combine`: the weight tables are
`{garbled: 0.4, dictionary: 0.3, confidence: 0.3}` when the confidence
signal ran and `{garbled: 0.55, dictionary: 0.45}` otherwise, and the sum is
divided by the total weight of the signals present. -/
def combineSignals (g d : ℚ) (c : Option ℚ) : ℚ :=
  match c with
  | Option.some cv => (g * 0.4 + d * 0.3 + cv * 0.3) / (0.4 + 0.3 + 0.3)
  | Option.none => (g * 0.55 + d * 0.45) / (0.55 + 0.45)

/-- `quality.QualityResult`, restricted to the fields the claims exercise;
`floorFail` is the `floor_fail` local of `analyze`, exposed so the flagging
rule can be stated. -/
structure QualityOutcome : Type where
  score : ℚ
  flagged : Bool
  floorFail : Bool
  garbledScore : ℚ
  dictScore : ℚ
  confScore : Option ℚ
deriving DecidableEq, Repr

/-- `QualityAnalyzer.analyze`: run garbled and dictionary always, confidence
when data is supplied; combine; check per-signal floors; apply the
confidence short-circuits; flag when the composite is below the threshold or
a floor failed. -/
def analyze (a : Analyzer) (text : String)
    (confidence_data : Option (List ConfWord)) : QualityOutcome :=
  let g := (garbledSignal a.threshold text).score
  let d := (dictSignal a.wordlist text).score
  let c : Option ℚ := confidence_data.map (fun data => (confSignal data).score)
  let floorFail :=
    decide (g < a.floorGarbled) || decide (d < a.floorDictionary) ||
      (match c with
       | Option.some cv => decide (cv < a.floorConfidence)
       | Option.none => false)
  let base := combineSignals g d c
  let composite :=
    match c with
    | Option.some cv =>
      if (0.95 : ℚ) < cv then max base 0.9
      else if cv < (0.2 : ℚ) then min base 0.3
      else base
    | Option.none => base
  { score := composite
    flagged := decide (composite < a.threshold) || floorFail
    floorFail := floorFail
    garbledScore := g
    dictScore := d
    confScore := c }

/-! ## Result mapping (`batch.map_results_to_files`) -/

/-- `batch.FlaggedPage`: the Python record holds a direct reference to the
owning `FileResult`, modelled here as an index into the batch's file-result
list. -/
structure FlaggedPageRef : Type where
  fileIdx : Nat
  page_number : Nat
  batch_index : Nat
deriving DecidableEq, Repr

/-- The loop body of `map_results_to_files` applied to one page: set the
Surya text and engine, rescore, and set `flagged`/`status` from the new
score against the analyzer threshold. -/
def surya_page_update (a : Analyzer) (page_text : String) (p : PageResult) : PageResult :=
  let result := analyze a page_text Option.none
  let fl := decide (result.score < a.threshold)
  { p with
    text := Option.some page_text
    engine := OCREngine.surya
    quality_score := result.score
    flagged := fl
    status := if fl then PageStatus.flagged else PageStatus.good }

/-- One iteration of the `map_results_to_files` loop over a flagged page
(`page_texts[fp.batch_index]` is accessed with a default for the
out-of-range case Python would raise on; the C10 theorem shows every
reachable access is in range). -/
def mapStep (a : Analyzer) (page_texts : List String)
    (files : List FileResult) (fp : FlaggedPageRef) : List FileResult :=
  let text := page_texts.getD fp.batch_index ""
  listModify
    (fun fr => { pages := listModify (surya_page_update a text) fp.page_number fr.pages })
    fp.fileIdx files

/-- `batch.map_results_to_files`: split the combined Surya output into one
text per flagged page and rewrite each flagged page's record in its owning
file result. -/
def map_results_to_files (files : List FileResult) (flagged_pages : List FlaggedPageRef)
    (surya_text : String) (a : Analyzer) : List FileResult :=
  let page_texts := split_markdown_by_pages surya_text flagged_pages.length
  flagged_pages.foldl (mapStep a page_texts) files

/-- The page stored at file index `i`, page index `j`. -/
def pageAt (files : List FileResult) (i j : Nat) : Option PageResult :=
  (files[i]?).bind (fun fr => fr.pages[j]?)

/-! ## Surya engine wrapper (`surya.py`) -/

/-- The Python exceptions that reach `convert_pdf_with_fallback`:
`RuntimeError` from the underlying converter and the package's `SuryaError`.
`SuryaError` derives `OCRError → ScholarDocError → Exception`
(`exceptions.py`), so it is not an instance of `RuntimeError`. -/
inductive PyError : Type
  | runtimeErr (msg : String)
  | suryaErr (msg : String)
deriving DecidableEq, Repr

/-- The message carried by an exception. -/
def errMsg : PyError → String
  | PyError.runtimeErr m => m
  | PyError.suryaErr m => m

/-- Whether `except RuntimeError` catches the exception: only `RuntimeError`
itself; `SuryaError` is not in `RuntimeError`'s subclass hierarchy. -/
def isRuntimeInstance : PyError → Bool
  | PyError.runtimeErr _ => true
  | PyError.suryaErr _ => false

/-- `surya.convert_pdf`: the underlying Marker converter call is an oracle
parameter giving the outcome the external call would have; any exception it
raises is caught by the `except Exception` handler and re-raised as
`SuryaError` with the conversion-failed message. -/
def convert_pdf (input_path : String)
    (converter_outcome : Except PyError String) : Except PyError String :=
  match converter_outcome with
  | Except.ok markdown => Except.ok markdown
  | Except.error exc =>
    Except.error (PyError.suryaErr
      ("Surya/Marker conversion failed for " ++ input_path ++ ": " ++ errMsg exc))

/-- `surya.convert_pdf_with_fallback`: try `convert_pdf` on the given models;
`except RuntimeError` handles the failure (strict mode surfaces a
`SuryaError`, otherwise the models are reloaded on CPU and the conversion is
retried once). `gpu_outcome` and `cpu_outcome` are the oracle outcomes of
the underlying converter on the initial models and on CPU-reloaded models;
the GPU-cache clearing has no observable effect on the returned value. -/
def convert_pdf_with_fallback (input_path : String)
    (gpu_outcome cpu_outcome : Except PyError String)
    (strict_gpu : Bool) : Except PyError (String × Bool) :=
  match convert_pdf input_path gpu_outcome with
  | Except.ok markdown => Except.ok (markdown, false)
  | Except.error exc =>
    if isRuntimeInstance exc then
      if strict_gpu then
        Except.error (PyError.suryaErr
          ("GPU inference failed and strict_gpu=True: " ++ errMsg exc))
      else
        match convert_pdf input_path cpu_outcome with
        | Except.ok markdown => Except.ok (markdown, true)
        | Except.error e2 => Except.error e2
    else
      Except.error exc

/-! ## Text post-processor (`postprocess.py`) -/

/-- The ligature decomposition map `_LIGATURES` applied to one character. -/
def expandLigature (c : Char) : List Char :=
  if c = Char.ofNat 0xFB00 then ['f', 'f']
  else if c = Char.ofNat 0xFB01 then ['f', 'i']
  else if c = Char.ofNat 0xFB02 then ['f', 'l']
  else if c = Char.ofNat 0xFB03 then ['f', 'f', 'i']
  else if c = Char.ofNat 0xFB04 then ['f', 'f', 'l']
  else [c]

/-- Python's `unicodedata.normalize("NFC", text)`. After ligature expansion
and soft-hyphen removal every text this development evaluates is ASCII, and
NFC is the identity on ASCII (indeed on any NFC-normal text); the external
library call is modelled as the identity. -/
def pyNFC (s : List Char) : List Char := s

/-- `postprocess.normalize_unicode` (count instrumentation omitted):
decompose ligatures, remove soft hyphens (U+00AD), NFC-normalize. -/
def normalize_unicode (s : List Char) : List Char :=
  pyNFC (((s.map expandLigature).flatten).filter (fun c => c ≠ Char.ofNat 0xAD))

/-- `postprocess._HYPHENATED_NAMES`. -/
def hyphenatedNames : List String :=
  ["merleau-ponty", "sartre-beauvoir", "buber-rosenzweig"]

/-- `postprocess.dehyphenate._replace_hyphen` on the two word groups of a
`(\w+)-\n(\w+)` match: keep the hyphen (dropping the newline) for curated
names and capitalized-capitalized pairs, otherwise rejoin the halves.
The `terms` parameter of `dehyphenate` is unused by the source. -/
def replaceHyphen (left right : List Char) : List Char :=
  let hyphenated := left ++ '-' :: right
  if hyphenatedNames.contains (String.mk (pyLower hyphenated)) then hyphenated
  else
    match left, right with
    | l0 :: _, r0 :: _ =>
      if l0.isUpper && r0.isUpper then hyphenated else left ++ right
    | _, _ => left ++ right

/-- Scanner for `re.sub(r"(\w+)-\n(\w+)", _replace_hyphen, text)`: a match
starts at a word run followed by a hyphen, a newline and another word run;
no match can start inside a word run whose end fails the check, so the run
is emitted whole. -/
def dehyGo : Nat → List Char → List Char → List Char
  | 0, acc, rest => acc.reverse ++ rest
  | _ + 1, acc, [] => acc.reverse
  | fuel + 1, acc, c :: cs =>
    if isWordC c then
      let w := c :: cs.takeWhile isWordC
      let rest := cs.drop (w.length - 1)
      match rest with
      | '-' :: '\n' :: r2 =>
        let w2 := r2.takeWhile isWordC
        if 1 ≤ w2.length then
          dehyGo fuel ((replaceHyphen w w2).reverse ++ acc) (r2.drop w2.length)
        else dehyGo fuel (w.reverse ++ acc) rest
      | _ => dehyGo fuel (w.reverse ++ acc) rest
    else dehyGo fuel (c :: acc) cs

/-- `postprocess.dehyphenate` (count instrumentation omitted). -/
def dehyphenate (s : List Char) : List Char :=
  dehyGo s.length [] s

/-- Scanner for `re.split(r"\n\n+", s)`: a separator is a maximal run of at
least two newlines. -/
def splitNl2Go : Nat → List Char → List Char → List (List Char)
  | 0, acc, rest => [acc.reverse ++ rest]
  | _ + 1, acc, [] => [acc.reverse]
  | fuel + 1, acc, c :: cs =>
    if c = '\n' then
      let run := cs.takeWhile (fun d => d = '\n')
      if 1 ≤ run.length then
        acc.reverse :: splitNl2Go fuel [] (cs.drop run.length)
      else splitNl2Go fuel (c :: acc) cs
    else splitNl2Go fuel (c :: acc) cs

/-- Python `block.split("\n")` (single-character separator, empties kept). -/
def splitOnNl (s : List Char) : List (List Char) :=
  s.foldr
    (fun c acc =>
      if c = '\n' then [] :: acc
      else
        match acc with
        | [] => [[c]]
        | t :: ts => (c :: t) :: ts)
    [[]]

/-- The line-merging loop of `join_paragraphs` over one block: `mergedRev`
accumulates the appended pieces (most recent first); the Boolean is true on
the first line. Indented lines and heading-like boundaries (previous visible
line shorter than 60 characters, next line starting upper-case) keep a
newline; other lines merge with a space. -/
def joinLines : List (List Char) → Bool → List (List Char) → List (List Char)
  | [], _, mergedRev => mergedRev.reverse
  | line :: rest, isFirst, mergedRev =>
    let stripped := pyRstrip line
    if !line.isEmpty && (line.headD ' ' = ' ' || line.headD ' ' = '\t') && !isFirst then
      joinLines rest false (('\n' :: line) :: mergedRev)
    else if !isFirst && !mergedRev.isEmpty &&
        decide ((pyStripWs ((pyRstrip (mergedRev.headD [])).filter (fun c => c ≠ '\n'))).length < 60) &&
        !stripped.isEmpty && (stripped.headD ' ').isUpper then
      joinLines rest false (('\n' :: stripped) :: mergedRev)
    else if isFirst then joinLines rest false (stripped :: mergedRev)
    else joinLines rest false ((' ' :: stripped) :: mergedRev)

/-- `postprocess.join_paragraphs` (count instrumentation omitted): split on
double-newline runs, merge the lines of each multi-line block, and rejoin
the blocks with exactly one blank line. -/
def join_paragraphs (s : List Char) : List Char :=
  let blocks := splitNl2Go s.length [] s
  let processed := blocks.map (fun b =>
    let lines := splitOnNl b
    if lines.length ≤ 1 then b
    else (joinLines lines true []).flatten)
  (processed.intersperse ['\n', '\n']).flatten

/-- The punctuation class of `re.sub(r"\s+([.,;:!?])", ...)`. -/
def punctClass : List Char := ['.', ',', ';', ':', '!', '?']

/-- Scanner for `re.sub(r"\s+([.,;:!?])", r"\1", s)`: a maximal whitespace
run followed by a punctuation character is replaced by the punctuation
character alone. -/
def punctSub1Go : Nat → List Char → List Char → List Char
  | 0, acc, rest => acc.reverse ++ rest
  | _ + 1, acc, [] => acc.reverse
  | fuel + 1, acc, c :: cs =>
    if isPyWs c then
      let run := cs.takeWhile isPyWs
      match cs.drop run.length with
      | p :: r2 =>
        if punctClass.contains p then punctSub1Go fuel (p :: acc) r2
        else punctSub1Go fuel ((c :: run).reverse ++ acc) (p :: r2)
      | [] => punctSub1Go fuel ((c :: run).reverse ++ acc) []
    else punctSub1Go fuel (c :: acc) cs

/-- Scanner for `re.sub(r"  +", " ", s)`: collapse each maximal run of two
or more spaces to one (emitting a single space and skipping the run handles
both the match and the single-space non-match uniformly). -/
def punctSub2Go : Nat → List Char → List Char → List Char
  | 0, acc, rest => acc.reverse ++ rest
  | _ + 1, acc, [] => acc.reverse
  | fuel + 1, acc, c :: cs =>
    if c = ' ' then
      let run := cs.takeWhile (fun d => d = ' ')
      punctSub2Go fuel (' ' :: acc) (cs.drop run.length)
    else punctSub2Go fuel (c :: acc) cs

/-- Scanner for `re.sub(r"[ \t]+(\n)", r"\1", s)`: drop each maximal
space/tab run immediately preceding a newline. -/
def punctSub3Go : Nat → List Char → List Char → List Char
  | 0, acc, rest => acc.reverse ++ rest
  | _ + 1, acc, [] => acc.reverse
  | fuel + 1, acc, c :: cs =>
    if c = ' ' || c = '\t' then
      let run := cs.takeWhile (fun d => d = ' ' || d = '\t')
      match cs.drop run.length with
      | '\n' :: r2 => punctSub3Go fuel ('\n' :: acc) r2
      | rest => punctSub3Go fuel ((c :: run).reverse ++ acc) rest
    else punctSub3Go fuel (c :: acc) cs

/-- `re.sub(r"[ \t]+$", "", s)` without MULTILINE: `$` matches only at the
end of the string or before a final newline, so at most one trailing run is
removed. -/
def punctSub4 (s : List Char) : List Char :=
  match s.reverse with
  | '\n' :: rest => ((rest.dropWhile (fun c => c = ' ' || c = '\t')).reverse) ++ ['\n']
  | r => (r.dropWhile (fun c => c = ' ' || c = '\t')).reverse

/-- `postprocess.normalize_punctuation` (count instrumentation omitted). -/
def normalize_punctuation (s : List Char) : List Char :=
  punctSub4 (punctSub3Go s.length [] (punctSub2Go s.length [] (punctSub1Go s.length [] s)))

/-- `postprocess.postprocess`: unicode normalization, dehyphenation,
paragraph joining, whitespace/punctuation normalization, in the source's
order. -/
def postprocess (text : String) : String :=
  String.mk (normalize_punctuation (join_paragraphs (dehyphenate (normalize_unicode text.data))))

/-! ## Derived counting functions and concrete inputs used by the theorems -/

/-- Tokens the garbled loop actually scores (not skipped). -/
def garbledScoredCount (text : String) : Nat :=
  (pyTokens text.data).countP (fun w => !garbledTokenSkipped w)

/-- Tokens the garbled loop counts as garbled. -/
def garbledCountOf (text : String) : Nat :=
  (pyTokens text.data).countP
    (fun w => !garbledTokenSkipped w && tokenIsGarbled (cleanGarbledToken w))

/-- The garbled score exactly as the claim words it: the denominator counts
only the tokens actually scored. Written from the claim's words for
comparison with `garbledSignal`. -/
def claimGarbledScore (text : String) : ℚ :=
  if text.data.isEmpty || decide ((pyStripWs text.data).length < 100) then 1
  else max 0 (1 - 2 * (garbledCountOf text : ℚ) / (garbledScoredCount text : ℚ))

/-- A page whose per-page invariant the specification's claims quantify
over. -/
def InvPage (a : Analyzer) (p : PageResult) : Prop :=
  p.flagged = decide (p.quality_score < a.threshold) ∧
    (p.status = PageStatus.flagged ↔ p.flagged = true)

/-- A text of 30 whitespace tokens, 113 characters after stripping: 24
stop-word tokens the garbled loop skips and 6 pure-symbol tokens it counts
as garbled. -/
def c4text : String :=
  "the of to in the of to in the of to in the of to in the of to in the of to in @@@@@ @@@@@ @@@@@ @@@@@ @@@@@ @@@@@"

/-- A text of 20 pure-symbol tokens (119 characters after stripping): every
token is garbled, so the garbled signal scores 0 and fails its 0.5 floor,
while the dictionary signal skips every token and scores 1. -/
def c2text : String :=
  "@@@@@ @@@@@ @@@@@ @@@@@ @@@@@ @@@@@ @@@@@ @@@@@ @@@@@ @@@@@ @@@@@ @@@@@ @@@@@ @@@@@ @@@@@ @@@@@ @@@@@ @@@@@ @@@@@ @@@@@"

/-- An analyzer with a low threshold (0.3): the composite 0.45 of `c2text`
is above it while the garbled floor (0.5) fails. -/
def c2analyzer : Analyzer := { threshold := 0.3 }

/-- The single flagged page of the `c2files` batch before Phase-2. -/
def c2page0 : PageResult :=
  { page_number := 0, status := PageStatus.flagged, quality_score := 0.2,
    engine := OCREngine.tesseract, flagged := true, text := Option.none }

/-- A one-file, one-page batch whose only page is flagged. -/
def c2files : List FileResult :=
  [{ pages := [c2page0] }]

/-- The flagged-page record for the single page of `c2files`. -/
def c2fps : List FlaggedPageRef :=
  [{ fileIdx := 0, page_number := 0, batch_index := 0 }]

/-- Pages using a real engine and the NONE engine together. -/
def c3pages : List PageResult :=
  [{ page_number := 0, status := PageStatus.good, quality_score := 1,
     engine := OCREngine.tesseract, flagged := false, text := Option.none },
   { page_number := 1, status := PageStatus.error, quality_score := 0,
     engine := OCREngine.none, flagged := false, text := Option.none }]

/-- A markdown blob containing a horizontal-rule separator. -/
def c5md : String := "a\n---\nb"

/-- A short heading, a 54-character lower-case line and an upper-case line:
the first postprocess pass keeps the heading boundary (previous visible line
is 5 characters), but joins the heading with the second line; the second
pass sees a 60-character previous line and merges the boundary it had kept. -/
def c8text : String :=
  "Intro\naaaaaaaaaaaaaaaaaaaaaaaaaaaaaaaaaaaaaaaaaaaaaaaaaaaaaa\nNext"

/-- The GPU-conversion outcome of a runtime failure in the underlying
converter. -/
def c1gpuFail : Except PyError String :=
  Except.error (PyError.runtimeErr "MPS backend out of memory")

/-! ## Helper lemmas -/

theorem max_zero_of_nonneg {q : ℚ} (h : 0 ≤ q) : max 0 q = q :=
  max_eq_right h

theorem max_zero_of_nonpos {q : ℚ} (h : q ≤ 0) : max 0 q = 0 :=
  max_eq_left h

theorem decide_lt_false {a b : ℚ} (h : b ≤ a) : decide (a < b) = false :=
  decide_eq_false (not_lt.mpr h)

theorem decide_lt_true {a b : ℚ} (h : a < b) : decide (a < b) = true :=
  decide_eq_true h

/-! ## C6: memory-aware batch sizing -/

/-- C6: `compute_safe_batch_size` returns 0 for zero pages; on CPU it is
`min(total_pages, 32)`; on GPU it is `⌊available_gb · 0.5 / 0.7⌋` clamped
between 1 and `min(total_pages, 100)`; for at least one page the result is
at least 1; and at (50 pages, 4.0 GB, GPU) the result is 2. -/
theorem compute_safe_batch_size_spec (total_pages : Int) (available_memory_gb : ℚ)
    (device : String) :
    compute_safe_batch_size 0 available_memory_gb device = 0 ∧
    (device = "cpu" → 1 ≤ total_pages →
      compute_safe_batch_size total_pages available_memory_gb device = min total_pages 32) ∧
    (device ≠ "cpu" → 1 ≤ total_pages →
      compute_safe_batch_size total_pages available_memory_gb device =
        max 1 (min (min total_pages 100) ⌊available_memory_gb * 0.5 / 0.7⌋)) ∧
    (1 ≤ total_pages → 1 ≤ compute_safe_batch_size total_pages available_memory_gb device) ∧
    compute_safe_batch_size 50 4 "mps" = 2 := by
  have hfloor : (⌊(4 : ℚ) * 0.5 / 0.7⌋ : Int) = 2 := by
    rw [Int.floor_eq_iff]; norm_num
  have hgpu : ∀ (h1 : device ≠ "cpu") (h2 : 1 ≤ total_pages),
      compute_safe_batch_size total_pages available_memory_gb device =
        max 1 (min (min total_pages 100) ⌊available_memory_gb * 0.5 / 0.7⌋) := by
    intro h1 h2
    unfold compute_safe_batch_size
    rw [if_neg (by omega), if_neg h1]
    simp only [BATCH_SIZE_MEMORY_PER_PAGE_GB]
    rcases le_or_lt 0 (available_memory_gb * 0.5 / 0.7) with hq | hq
    · rw [pyTruncToInt, if_pos hq]
      rw [min_comm ⌊available_memory_gb * 0.5 / 0.7⌋ 100, ← min_assoc]
    · have hf : (⌊available_memory_gb * 0.5 / 0.7⌋ : Int) < 0 := by
        have := Int.floor_le (available_memory_gb * 0.5 / 0.7)
        have h0 : ((⌊available_memory_gb * 0.5 / 0.7⌋ : Int) : ℚ) < 0 := lt_of_le_of_lt this hq
        exact_mod_cast h0
      have ht : pyTruncToInt (available_memory_gb * 0.5 / 0.7) ≤ 0 := by
        rw [pyTruncToInt, if_neg (not_le.mpr hq)]
        have : (0 : Int) ≤ ⌊-(available_memory_gb * 0.5 / 0.7)⌋ := by
          rw [Int.le_floor]
          push_cast
          linarith
        omega
      rw [max_eq_left, max_eq_left]
      · omega
      · have : min total_pages (min (pyTruncToInt (available_memory_gb * 0.5 / 0.7)) 100) ≤
            pyTruncToInt (available_memory_gb * 0.5 / 0.7) :=
          le_trans (min_le_right _ _) (min_le_left _ _)
        omega
  refine ⟨?_, ?_, hgpu, ?_, ?_⟩
  · rfl
  · intro h1 h2
    unfold compute_safe_batch_size
    rw [if_neg (by omega), if_pos h1]
  · intro h2
    by_cases hd : device = "cpu"
    · unfold compute_safe_batch_size
      rw [if_neg (by omega), if_pos hd]
      omega
    · rw [hgpu hd h2]
      exact le_max_left _ _
  · unfold compute_safe_batch_size
    rw [if_neg (by decide), if_neg (by decide)]
    simp only [BATCH_SIZE_MEMORY_PER_PAGE_GB]
    rw [pyTruncToInt, if_pos (by norm_num), hfloor]
    omega

/-! ## C10: the splitter returns exactly `page_count` parts -/

/-- C10: `split_markdown_by_pages` returns a list of exactly `page_count`
strings, so in `map_results_to_files` every access `page_texts[fp.batch_index]`
with `fp.batch_index < page_count` is in bounds. -/
theorem split_markdown_by_pages_length (markdown : String) (page_count : Nat) :
    (split_markdown_by_pages markdown page_count).length = page_count ∧
    (∀ i : Nat, i < page_count → i < (split_markdown_by_pages markdown page_count).length) := by
  have hlen : (split_markdown_by_pages markdown page_count).length = page_count := by
    unfold split_markdown_by_pages
    dsimp only
    split_ifs with h0 h1 h2 h3
    · simp [h0]
    · simp [h1]
    · simp [List.length_take, Nat.min_eq_left h2]
    · simp [List.length_take, Nat.min_eq_left h3]
    · simp only [List.length_cons, List.length_replicate]
      omega
  refine ⟨hlen, fun i hi => ?_⟩
  omega

/-! ## C5: the engine-output splitter -/

/-- C5 counterexample: at `page_count = 1` the source returns the whole
markdown unsplit, while the claim's procedure (split first, then take the
first `n` parts when the split yields at least `n`) would return only the
text before the first hyphen rule. -/
theorem split_markdown_one_page_cex :
    split_markdown_by_pages c5md 1 = [c5md] ∧
    claimSplitPages c5md 1 = ["a\n"] ∧
    split_markdown_by_pages c5md 1 ≠ claimSplitPages c5md 1 := by
  refine ⟨rfl, by decide, by decide⟩

/-- C5 amended: for `page_count = 1` the whole text is returned as the single
page without any split attempt; for `page_count ≥ 2` the splitter tries
`re.split(r"\n-{3,}\n")` (newline, three-or-more hyphens, newline), then
`re.split(r"\n{3,}")` (three-or-more newline characters, i.e. two-or-more
blank lines); a split yielding at least `page_count` parts wins and its
first `page_count` parts are returned; otherwise the whole text becomes the
first page and the rest are empty. -/
theorem split_markdown_by_pages_amended (markdown : String) (page_count : Nat) :
    split_markdown_by_pages markdown 1 = [markdown] ∧
    (2 ≤ page_count →
      split_markdown_by_pages markdown page_count =
        if page_count ≤ (reSplitHr markdown).length then (reSplitHr markdown).take page_count
        else if page_count ≤ (reSplitNl3 markdown).length then (reSplitNl3 markdown).take page_count
        else markdown :: List.replicate (page_count - 1) "") := by
  constructor
  · rfl
  · intro h2
    unfold split_markdown_by_pages
    rw [if_neg (by omega), if_neg (by omega)]

/-! ## C3: the engine roll-up rule -/

/-- C3 counterexample: a list containing a real engine and NONE yields that
real engine, not MIXED as the claim states — the source filters NONE out
before forming the distinct-engine set. -/
theorem compute_engine_none_mix_cex :
    compute_engine_from_pages c3pages = OCREngine.tesseract ∧
    specEngineRule c3pages = OCREngine.mixed ∧
    compute_engine_from_pages c3pages ≠ specEngineRule c3pages := by
  refine ⟨by decide, by decide, by decide⟩

/-- C3 amended: the rolled-up engine is computed from the distinct
*non-NONE* per-page engine values: none left → NONE (this covers the empty
list and the all-NONE list); all remaining values the same engine → that
engine; two distinct remaining values → MIXED. In particular a real engine
together with NONE yields the real engine. -/
theorem compute_engine_from_pages_amended (pages : List PageResult) :
    (nonNoneEngines pages = [] → compute_engine_from_pages pages = OCREngine.none) ∧
    (∀ e : OCREngine, e ≠ OCREngine.none → e ∈ nonNoneEngines pages →
      (∀ x ∈ nonNoneEngines pages, x = e) → compute_engine_from_pages pages = e) ∧
    (∀ e1 e2 : OCREngine, e1 ∈ nonNoneEngines pages → e2 ∈ nonNoneEngines pages →
      e1 ≠ e2 → compute_engine_from_pages pages = OCREngine.mixed) := by
  refine ⟨?_, ?_, ?_⟩
  · intro h
    unfold compute_engine_from_pages
    dsimp only
    rw [if_pos (by simp [h])]
  · intro e hne hmem hall
    have hne' : ¬(nonNoneEngines pages).isEmpty = true := by
      rw [List.isEmpty_iff]
      intro h
      rw [h] at hmem
      exact absurd hmem (List.not_mem_nil e)
    have hallT : ∀ v : OCREngine, e = v →
        ((nonNoneEngines pages).all (fun x => decide (x = v))) = true := by
      intro v hv
      rw [List.all_eq_true]
      intro x hx
      simpa using (hall x hx).trans hv
    have hallF : ∀ v : OCREngine, e ≠ v →
        ((nonNoneEngines pages).all (fun x => decide (x = v))) = false := by
      intro v hv
      rw [List.all_eq_false]
      exact ⟨e, hmem, by simpa using hv⟩
    unfold compute_engine_from_pages
    dsimp only
    rw [if_neg hne']
    cases e with
    | tesseract => rw [if_pos (hallT _ rfl)]
    | surya =>
      rw [if_neg (by rw [hallF OCREngine.tesseract (by decide)]; decide),
        if_pos (hallT _ rfl)]
    | existing =>
      rw [if_neg (by rw [hallF OCREngine.tesseract (by decide)]; decide),
        if_neg (by rw [hallF OCREngine.surya (by decide)]; decide),
        if_pos (hallT _ rfl)]
    | mixed =>
      rw [if_neg (by rw [hallF OCREngine.tesseract (by decide)]; decide),
        if_neg (by rw [hallF OCREngine.surya (by decide)]; decide),
        if_neg (by rw [hallF OCREngine.existing (by decide)]; decide)]
    | none => exact absurd rfl hne
  · intro e1 e2 hmem1 hmem2 hne
    have hne' : ¬(nonNoneEngines pages).isEmpty = true := by
      rw [List.isEmpty_iff]
      intro h
      rw [h] at hmem1
      exact absurd hmem1 (List.not_mem_nil e1)
    have hallF : ∀ v : OCREngine,
        ((nonNoneEngines pages).all (fun x => decide (x = v))) = false := by
      intro v
      rw [List.all_eq_false]
      rcases eq_or_ne e1 v with h | h
      · refine ⟨e2, hmem2, ?_⟩
        subst h
        simpa using (Ne.symm hne)
      · exact ⟨e1, hmem1, by simpa using h⟩
    unfold compute_engine_from_pages
    dsimp only
    rw [if_neg hne', if_neg (by rw [hallF]; decide), if_neg (by rw [hallF]; decide),
      if_neg (by rw [hallF]; decide)]

/-! ## C1: the GPU-to-CPU fallback is unreachable -/

/-- C1 (code-bug evidence): when the underlying conversion fails at runtime,
`convert_pdf` wraps the `RuntimeError` in a `SuryaError`, which
`except RuntimeError` in `convert_pdf_with_fallback` never catches — with
`strict_gpu = false` the error propagates instead of triggering the CPU
retry (a successful CPU retry is available and unused), with
`strict_gpu = true` the error propagates unwrapped; and no execution at all
returns `fallback_occurred = true`. -/
theorem convert_pdf_with_fallback_no_retry :
    convert_pdf_with_fallback "in.pdf" c1gpuFail (Except.ok "recovered") false =
      Except.error (PyError.suryaErr
        "Surya/Marker conversion failed for in.pdf: MPS backend out of memory") ∧
    convert_pdf_with_fallback "in.pdf" c1gpuFail (Except.ok "recovered") true =
      Except.error (PyError.suryaErr
        "Surya/Marker conversion failed for in.pdf: MPS backend out of memory") ∧
    (∀ (input_path : String) (gpu cpu : Except PyError String) (strict : Bool)
        (markdown : String) (b : Bool),
      convert_pdf_with_fallback input_path gpu cpu strict = Except.ok (markdown, b) →
      b = false) := by
  refine ⟨rfl, rfl, ?_⟩
  intro input_path gpu cpu strict markdown b h
  cases gpu with
  | ok md =>
    simp only [convert_pdf_with_fallback, convert_pdf] at h
    injection h with h1
    injection h1 with h2 h3
    exact h3.symm
  | error e =>
    simp [convert_pdf_with_fallback, convert_pdf, isRuntimeInstance] at h

/-! ## C9: the empty-text contract -/

/-- C9: on empty text (no confidence data) the garbled and dictionary
signals both score 1.0 and pass, the composite score is 1.0, and the result
is not flagged (for any loaded word list, with the default threshold and
floors). -/
theorem analyze_empty_text (wordlist : List String) :
    (garbledSignal (0.85 : ℚ) "").score = 1 ∧
    (garbledSignal (0.85 : ℚ) "").passed = true ∧
    (dictSignal wordlist "").score = 1 ∧
    (dictSignal wordlist "").passed = true ∧
    (analyze { wordlist := wordlist } "" Option.none).score = 1 ∧
    (analyze { wordlist := wordlist } "" Option.none).flagged = false := by
  have hcomb : combineSignals (1 : ℚ) 1 Option.none = 1 := by
    unfold combineSignals
    norm_num
  have hg : (garbledSignal ((({ wordlist := wordlist } : Analyzer)).threshold) "").score = 1 := rfl
  have hd : (dictSignal wordlist "").score = 1 := rfl
  have hscore : (analyze { wordlist := wordlist } "" Option.none).score = 1 := by
    show combineSignals (garbledSignal (({ wordlist := wordlist } : Analyzer)).threshold "").score
      (dictSignal wordlist "").score Option.none = 1
    rw [hg, hd]
    exact hcomb
  refine ⟨rfl, rfl, rfl, rfl, hscore, ?_⟩
  show (decide ((analyze { wordlist := wordlist } "" Option.none).score <
      (({ wordlist := wordlist } : Analyzer)).threshold) ||
    (decide ((garbledSignal (({ wordlist := wordlist } : Analyzer)).threshold "").score < (0.5 : ℚ)) ||
      decide ((dictSignal wordlist "").score < (0.4 : ℚ)) || false)) = false
  rw [hscore, hg, hd, decide_lt_false (by norm_num), decide_lt_false (by norm_num),
    decide_lt_false (by norm_num)]
  rfl

/-! ## C7: the composite weighting rule -/

/-- C7: the analyzer's composite score is the weighted mean of the signal
scores with weights 0.4/0.3/0.3 when confidence data is supplied and
0.55/0.45 otherwise, normalized by the total weight of the signals present;
a confidence score above 0.95 lifts the composite to at least 0.9 and one
below 0.2 caps it at 0.3. -/
theorem analyze_composite_weights (a : Analyzer) (text : String) :
    (analyze a text Option.none).score =
      ((garbledSignal a.threshold text).score * 0.55 +
        (dictSignal a.wordlist text).score * 0.45) / (0.55 + 0.45) ∧
    (∀ confidence_data : List ConfWord,
      (analyze a text (Option.some confidence_data)).score =
        (let g := (garbledSignal a.threshold text).score
         let d := (dictSignal a.wordlist text).score
         let c := (confSignal confidence_data).score
         let base := (g * 0.4 + d * 0.3 + c * 0.3) / (0.4 + 0.3 + 0.3)
         if (0.95 : ℚ) < c then max base 0.9
         else if c < (0.2 : ℚ) then min base 0.3
         else base)) :=
  ⟨rfl, fun _ => rfl⟩

/-! ## C4: the garbled score's denominator -/

theorem garbledLoop_eq_countP (ws : List (List Char)) (g : Nat) :
    garbledLoop ws g =
      g + ws.countP (fun w => !garbledTokenSkipped w && tokenIsGarbled (cleanGarbledToken w)) := by
  induction ws generalizing g with
  | nil => simp [garbledLoop]
  | cons w ws ih =>
    unfold garbledLoop
    by_cases h1 : garbledTokenSkipped w
    · rw [if_pos h1, ih, List.countP_cons]
      simp [h1]
    · rw [if_neg h1]
      by_cases h2 : tokenIsGarbled (cleanGarbledToken w)
      · rw [if_pos h2, ih, List.countP_cons]
        simp only [h1, h2, Bool.not_true, Bool.not_false, Bool.and_self, if_pos]
        omega
      · rw [if_neg h2, ih, List.countP_cons]
        simp [h1, h2]

/-- C4 counterexample: on a 113-character text of 24 skipped stop-word
tokens and 6 garbled symbol tokens, the source scores
`1 − 2·6/30 = 0.6` (denominator: all whitespace tokens), while the claim's
formula with `total` = tokens actually scored gives `max(0, 1 − 2·6/6) = 0`. -/
theorem garbled_denominator_cex :
    (garbledSignal 0.85 c4text).score = 3 / 5 ∧
    claimGarbledScore c4text = 0 ∧
    (garbledSignal 0.85 c4text).score ≠ claimGarbledScore c4text := by
  have hcount : garbledLoop (pyTokens c4text.data) 0 = 6 := by decide
  have hlen : (pyTokens c4text.data).length = 30 := by decide
  have hshort : (c4text.data.isEmpty || decide ((pyStripWs c4text.data).length < 100)) = false := by
    decide
  have hscored : garbledScoredCount c4text = 6 := by decide
  have hgc : garbledCountOf c4text = 6 := by decide
  have hs1 : (garbledSignal 0.85 c4text).score = 3 / 5 := by
    unfold garbledSignal
    dsimp only
    rw [if_neg (by rw [hshort]; decide), if_neg (by rw [hlen]; decide)]
    rw [hcount, hlen]
    rw [show (1 - ((6 : ℕ) : ℚ) / ((30 : ℕ) : ℚ) * 2) = 3 / 5 by push_cast; norm_num]
    exact max_zero_of_nonneg (by norm_num)
  have hs2 : claimGarbledScore c4text = 0 := by
    unfold claimGarbledScore
    rw [if_neg (by rw [hshort]; decide), hgc, hscored]
    rw [show (1 - 2 * ((6 : ℕ) : ℚ) / ((6 : ℕ) : ℚ)) = -1 by push_cast; norm_num]
    exact max_zero_of_nonpos (by norm_num)
  refine ⟨hs1, hs2, ?_⟩
  rw [hs1, hs2]
  norm_num

/-- C4 amended: the garbled score is `max(0, 1 − 2·garbled/total)` where
`total` counts *all* whitespace tokens of the text (skipped tokens
included), and empty or short text scores 1.0. -/
theorem garbledSignal_score_formula (threshold : ℚ) (text : String) :
    (garbledSignal threshold text).score =
      if text.data.isEmpty || decide ((pyStripWs text.data).length < 100) then 1
      else if (pyTokens text.data).length = 0 then 1
      else max 0 (1 - (garbledCountOf text : ℚ) / (((pyTokens text.data).length : ℕ) : ℚ) * 2) := by
  unfold garbledSignal garbledCountOf
  dsimp only
  split_ifs with h1 h2
  · rfl
  · rfl
  · rw [garbledLoop_eq_countP]
    simp

/-! ## C8: the post-processor is not idempotent -/

/-- C8 (code-bug evidence): the first pass keeps the heading boundary after
"Intro" (the previous visible line has 5 < 60 characters) but joins "Intro"
with the 54-character line; the second pass sees a previous line of 60
characters, so the heading heuristic no longer fires and the boundary is
merged: `postprocess (postprocess t) ≠ postprocess t`. -/
theorem postprocess_not_idempotent :
    postprocess c8text =
      "Intro aaaaaaaaaaaaaaaaaaaaaaaaaaaaaaaaaaaaaaaaaaaaaaaaaaaaaa\nNext" ∧
    postprocess (postprocess c8text) =
      "Intro aaaaaaaaaaaaaaaaaaaaaaaaaaaaaaaaaaaaaaaaaaaaaaaaaaaaaa Next" ∧
    postprocess (postprocess c8text) ≠ postprocess c8text := by
  refine ⟨by decide, by decide, by decide⟩

/-! ## C2: the page invariant after result mapping -/

theorem getElem?_listModify_self {α : Type} (f : α → α) (i : Nat) (l : List α) :
    (listModify f i l)[i]? = (l[i]?).map f := by
  induction l generalizing i with
  | nil => simp [listModify]
  | cons x xs ih =>
    cases i with
    | zero => simp [listModify]
    | succ i => simpa [listModify] using ih i

theorem getElem?_listModify_ne {α : Type} (f : α → α) (i j : Nat) (l : List α) (h : j ≠ i) :
    (listModify f i l)[j]? = l[j]? := by
  induction l generalizing i j with
  | nil => simp [listModify]
  | cons x xs ih =>
    cases i with
    | zero =>
      cases j with
      | zero => exact absurd rfl h
      | succ j => simp [listModify]
    | succ i =>
      cases j with
      | zero => simp [listModify]
      | succ j => simpa [listModify] using ih _ _ (by omega)

theorem pageAt_mapStep_self (a : Analyzer) (pts : List String) (fs : List FileResult)
    (fp : FlaggedPageRef) :
    pageAt (mapStep a pts fs fp) fp.fileIdx fp.page_number =
      (pageAt fs fp.fileIdx fp.page_number).map
        (surya_page_update a (pts.getD fp.batch_index "")) := by
  unfold mapStep pageAt
  dsimp only
  rw [getElem?_listModify_self]
  cases hfr : fs[fp.fileIdx]? with
  | none => simp
  | some fr => simp [getElem?_listModify_self]

theorem pageAt_mapStep (a : Analyzer) (pts : List String) (fs : List FileResult)
    (fp : FlaggedPageRef) (i j : Nat) :
    pageAt (mapStep a pts fs fp) i j = pageAt fs i j ∨
    pageAt (mapStep a pts fs fp) i j =
      (pageAt fs i j).map (surya_page_update a (pts.getD fp.batch_index "")) := by
  by_cases hi : i = fp.fileIdx
  · by_cases hj : j = fp.page_number
    · subst hi
      subst hj
      exact Or.inr (pageAt_mapStep_self a pts fs fp)
    · subst hi
      left
      unfold mapStep pageAt
      dsimp only
      rw [getElem?_listModify_self]
      cases hfr : fs[fp.fileIdx]? with
      | none => simp
      | some fr => simp [getElem?_listModify_ne _ _ _ _ hj]
  · left
    unfold mapStep pageAt
    dsimp only
    rw [getElem?_listModify_ne _ _ _ _ hi]

theorem pageAt_mapStep_isSome (a : Analyzer) (pts : List String) (fs : List FileResult)
    (fp : FlaggedPageRef) (i j : Nat) :
    (pageAt (mapStep a pts fs fp) i j).isSome = (pageAt fs i j).isSome := by
  rcases pageAt_mapStep a pts fs fp i j with hc | hc
  · rw [hc]
  · rw [hc]
    simp

theorem invPage_surya_update (a : Analyzer) (t : String) (p : PageResult) :
    InvPage a (surya_page_update a t p) := by
  unfold InvPage surya_page_update
  dsimp only
  cases hb : decide ((analyze a t Option.none).score < a.threshold) with
  | false => simp [hb]
  | true => simp [hb]

theorem invPage_foldl (a : Analyzer) (pts : List String) (fps : List FlaggedPageRef)
    (fs : List FileResult) (i j : Nat) (p : PageResult)
    (h : pageAt fs i j = Option.some p) (hp : InvPage a p) :
    ∃ q, pageAt (fps.foldl (mapStep a pts) fs) i j = Option.some q ∧ InvPage a q := by
  induction fps generalizing fs p with
  | nil => exact ⟨p, h, hp⟩
  | cons fp rest ih =>
    rw [List.foldl_cons]
    rcases pageAt_mapStep a pts fs fp i j with hc | hc
    · exact ih (mapStep a pts fs fp) p (by rw [hc, h]) hp
    · exact ih (mapStep a pts fs fp) _ (by rw [hc, h]; rfl)
        (invPage_surya_update a (pts.getD fp.batch_index "") p)

/-- C2 amended: after `map_results_to_files`, every affected `PageResult`
(every page some `FlaggedPage` of the batch points at) has `flagged` true
exactly when its new quality score is below the analyzer threshold — the
per-signal floors are not re-checked — and `status == FLAGGED` exactly when
`flagged`. -/
theorem map_results_to_files_amended (files : List FileResult) (fps : List FlaggedPageRef)
    (surya_text : String) (a : Analyzer) (fp : FlaggedPageRef)
    (hmem : fp ∈ fps)
    (hin : (pageAt files fp.fileIdx fp.page_number).isSome = true) :
    ∃ p, pageAt (map_results_to_files files fps surya_text a) fp.fileIdx fp.page_number =
        Option.some p ∧
      p.flagged = decide (p.quality_score < a.threshold) ∧
      (p.status = PageStatus.flagged ↔ p.flagged = true) := by
  unfold map_results_to_files
  dsimp only
  generalize split_markdown_by_pages surya_text fps.length = pts
  induction fps generalizing files with
  | nil => cases hmem
  | cons fp0 rest ih =>
    rw [List.foldl_cons]
    rcases List.mem_cons.mp hmem with heq | hmem'
    · subst heq
      obtain ⟨q, hq⟩ := Option.isSome_iff_exists.mp hin
      have hstep : pageAt (mapStep a pts files fp) fp.fileIdx fp.page_number =
          Option.some (surya_page_update a (pts.getD fp.batch_index "") q) := by
        rw [pageAt_mapStep_self, hq]
        rfl
      obtain ⟨r, hr, hinv⟩ := invPage_foldl a pts rest (mapStep a pts files fp)
        fp.fileIdx fp.page_number _ hstep
        (invPage_surya_update a (pts.getD fp.batch_index "") q)
      exact ⟨r, hr, hinv.1, hinv.2⟩
    · exact ih (mapStep a pts files fp0) hmem'
        (by rw [pageAt_mapStep_isSome]; exact hin)

/-- C2 amended, witnessed at a concrete batch: one file, one flagged page,
batch index 0. -/
theorem map_results_to_files_amended_witness :
    ∃ p, pageAt (map_results_to_files c2files c2fps c2text c2analyzer) 0 0 =
        Option.some p ∧
      p.flagged = decide (p.quality_score < c2analyzer.threshold) ∧
      (p.status = PageStatus.flagged ↔ p.flagged = true) :=
  map_results_to_files_amended c2files c2fps c2text c2analyzer
    { fileIdx := 0, page_number := 0, batch_index := 0 } (by decide) (by decide)

/-- C2 counterexample: on `c2text` the garbled signal scores 0 (below its
0.5 floor) while the composite is 0.45, above the analyzer threshold 0.3;
`map_results_to_files` leaves the page unflagged (it compares only the
score with the threshold), so the claimed invariant
`flagged ↔ score < threshold ∨ floor failed` is violated. -/
theorem map_results_floor_ignored_cex :
    ∃ p, pageAt (map_results_to_files c2files c2fps c2text c2analyzer) 0 0 =
        Option.some p ∧
      p.flagged = false ∧
      (analyze c2analyzer c2text Option.none).floorFail = true ∧
      ¬(p.flagged = true ↔
        ((analyze c2analyzer c2text Option.none).score < c2analyzer.threshold ∨
         (analyze c2analyzer c2text Option.none).floorFail = true)) := by
  have hg : (garbledSignal c2analyzer.threshold c2text).score = 0 := by
    unfold garbledSignal
    dsimp only
    rw [if_neg (by decide), if_neg (by decide)]
    rw [show garbledLoop (pyTokens c2text.data) 0 = 20 from by decide,
      show (pyTokens c2text.data).length = 20 from by decide]
    rw [show (1 - ((20 : ℕ) : ℚ) / ((20 : ℕ) : ℚ) * 2) = -1 by push_cast; norm_num]
    exact max_zero_of_nonpos (by norm_num)
  have hd : (dictSignal c2analyzer.wordlist c2text).score = 1 := by
    unfold dictSignal
    rw [if_neg (by decide)]
    dsimp only
    rw [if_pos (by decide)]
  have hsc : (analyze c2analyzer c2text Option.none).score = 9 / 20 := by
    show combineSignals (garbledSignal c2analyzer.threshold c2text).score
      (dictSignal c2analyzer.wordlist c2text).score Option.none = 9 / 20
    rw [hg, hd]
    unfold combineSignals
    norm_num
  have hff : (analyze c2analyzer c2text Option.none).floorFail = true := by
    show (decide ((garbledSignal c2analyzer.threshold c2text).score < c2analyzer.floorGarbled) ||
      decide ((dictSignal c2analyzer.wordlist c2text).score < c2analyzer.floorDictionary) ||
      false) = true
    rw [hg, show c2analyzer.floorGarbled = 0.5 from rfl, decide_lt_true (by norm_num)]
    rfl
  have hpage : pageAt (map_results_to_files c2files c2fps c2text c2analyzer) 0 0 =
      Option.some (surya_page_update c2analyzer c2text c2page0) := rfl
  have hfl : (surya_page_update c2analyzer c2text c2page0).flagged = false := by
    show decide ((analyze c2analyzer c2text Option.none).score < c2analyzer.threshold) = false
    rw [hsc, show c2analyzer.threshold = 0.3 from rfl]
    exact decide_lt_false (by norm_num)
  refine ⟨surya_page_update c2analyzer c2text c2page0, hpage, hfl, hff, ?_⟩
  intro hiff
  have := hiff.mpr (Or.inr hff)
  rw [hfl] at this
  exact absurd this (by decide)

end ScholarDoc
